import Mathlib

/-!
Verification development for the delivery-cost Telegram bot
(`merged_delivery_bot.py`): a shallow embedding of its decimal parsing,
exchange-rate fallback chain, per-user settings store, workflow state
machine and final cost computation, together with theorems checking the
natural-language specification against the embedded code.

Python `Decimal` values are embedded as exact rationals (`ℚ`), extended
with the special values `NaN` and `±Infinity` that Python's decimal
parser also accepts.  Fallible Python operations (constructor errors,
trapped `InvalidOperation` / `DivisionByZero` signals, `KeyError`)
return `Option`, with `none` marking a raised exception.
-/

namespace ChinaBot

/-- A Python `Decimal` value: a finite exact decimal (embedded as `ℚ`),
a signed infinity, or NaN (quiet and signaling NaN are merged; the code
only ever compares parsed values, and ordering comparisons raise on
both). -/
inductive PyDec
  | fin (q : ℚ)
  | inf (neg : Bool)
  | nan
deriving DecidableEq

/-- Whitespace characters stripped by `Decimal(str)`. -/
def isWs (c : Char) : Bool :=
  c = ' ' || c = '\t' || c = '\n' || c = '\r' || c = Char.ofNat 11 || c = Char.ofNat 12

/-- Strip leading and trailing whitespace. -/
def stripWs (l : List Char) : List Char :=
  ((l.dropWhile isWs).reverse.dropWhile isWs).reverse

/-- Normalisation done by Python's `Decimal` constructor on its string
argument: strip outer whitespace, drop underscores, lowercase. -/
def normChars (l : List Char) : List Char :=
  ((stripWs l).filter (fun c => c != '_')).map Char.toLower

def isDig (c : Char) : Bool := '0' ≤ c && c ≤ '9'

def digVal (c : Char) : Nat := c.toNat - 48

def natOfDigits (l : List Char) : Nat :=
  l.foldl (fun n c => 10 * n + digVal c) 0

/-- Parse the exponent digits (after the `e`), with optional sign. -/
def parseExpDigits (l : List Char) : Option Int :=
  match l with
  | '+' :: ds => if !ds.isEmpty && ds.all isDig then some (Int.ofNat (natOfDigits ds)) else none
  | '-' :: ds => if !ds.isEmpty && ds.all isDig then some (-(Int.ofNat (natOfDigits ds))) else none
  | ds => if !ds.isEmpty && ds.all isDig then some (Int.ofNat (natOfDigits ds)) else none

/-- Parse the mantissa `digits [. digits]` into its digit value and the
number of fractional digits.  At least one digit must be present. -/
def parseMant (l : List Char) : Option (Nat × Nat) :=
  match l.span (fun c => c != '.') with
  | (ip, rest) =>
    match rest with
    | [] => if !ip.isEmpty && ip.all isDig then some (natOfDigits ip, 0) else none
    | _ :: fp =>
      if (!ip.isEmpty || !fp.isEmpty) && ip.all isDig && fp.all isDig then
        some (natOfDigits (ip ++ fp), fp.length)
      else none

/-- Parse a (sign-stripped, normalised) decimal numeric string:
`Infinity`/`Inf`, `NaN`/`sNaN` with optional payload digits, or
`digits[.digits][e[sign]digits]`. -/
def pyDecSigned (neg : Bool) (l : List Char) : Option PyDec :=
  if l = ['i', 'n', 'f'] || l = ['i', 'n', 'f', 'i', 'n', 'i', 't', 'y'] then
    some (.inf neg)
  else
    match l with
    | 'n' :: 'a' :: 'n' :: ds => if ds.all isDig then some .nan else none
    | 's' :: 'n' :: 'a' :: 'n' :: ds => if ds.all isDig then some .nan else none
    | _ =>
      match l.span (fun c => c != 'e') with
      | (mant, rest) =>
        let eo : Option Int :=
          match rest with
          | [] => some 0
          | _ :: es => parseExpDigits es
        match parseMant mant, eo with
        | some (n, fl), some e =>
          some (.fin ((if neg then -(n : ℚ) else (n : ℚ)) * (10 : ℚ) ^ (e - (fl : Int))))
        | _, _ => none

/-- Python's `Decimal(string)` constructor; `none` models the raised
conversion error. -/
def pyDecOfList (l : List Char) : Option PyDec :=
  match normChars l with
  | '+' :: rest => pyDecSigned false rest
  | '-' :: rest => pyDecSigned true rest
  | rest => pyDecSigned false rest

/-- `text.replace(',', '.')` at character level. -/
def commaToDot (c : Char) : Char := if c = ',' then '.' else c

/-- `parse_decimal` (source lines 32-38): replace commas by dots, then
apply the `Decimal` constructor; `none` models the `ValueError`. -/
def parse_decimal (s : String) : Option PyDec :=
  pyDecOfList (s.toList.map commaToDot)

/-- Writing a number with `,` as the decimal separator instead of `.`
(the locale variant the spec quantifies over). -/
def commaVersion (s : String) : String :=
  String.mk (s.toList.map (fun c => if c = '.' then ',' else c))

/-- Python truthiness of a `Decimal` (`bool(d)`): zero is falsy,
everything else (including NaN and infinities) truthy. -/
def PyDec.truthy : PyDec → Bool
  | .fin q => q != 0
  | .inf _ => true
  | .nan => true

def PyDec.neg : PyDec → PyDec
  | .fin q => .fin (-q)
  | .inf s => .inf (!s)
  | .nan => .nan

/-- Decimal addition under Python's default context: quiet NaN
propagates, opposite infinities raise `InvalidOperation` (`none`). -/
def PyDec.add : PyDec → PyDec → Option PyDec
  | .nan, _ => some .nan
  | _, .nan => some .nan
  | .fin a, .fin b => some (.fin (a + b))
  | .inf s, .fin _ => some (.inf s)
  | .fin _, .inf s => some (.inf s)
  | .inf s, .inf t => if s = t then some (.inf s) else none

def PyDec.sub (a b : PyDec) : Option PyDec := a.add b.neg

/-- Decimal multiplication; `0 * Infinity` raises (`none`). -/
def PyDec.mul : PyDec → PyDec → Option PyDec
  | .nan, _ => some .nan
  | _, .nan => some .nan
  | .fin a, .fin b => some (.fin (a * b))
  | .inf s, .fin b => if b = 0 then none else some (.inf (xor s (decide (b < 0))))
  | .fin a, .inf s => if a = 0 then none else some (.inf (xor s (decide (a < 0))))
  | .inf s, .inf t => some (.inf (xor s t))

/-- Decimal division; division by a finite zero raises
(`DivisionByZero` / `InvalidOperation`, both trapped by default),
`Infinity / Infinity` raises, NaN propagates quietly. -/
def PyDec.div : PyDec → PyDec → Option PyDec
  | .nan, _ => some .nan
  | _, .nan => some .nan
  | .fin a, .fin b => if b = 0 then none else some (.fin (a / b))
  | .inf s, .fin b => some (.inf (xor s (decide (b < 0))))
  | .fin _, .inf _ => some (.fin 0)
  | .inf _, .inf _ => none

/-- Python `a > b` on Decimals; ordering comparisons with NaN raise
`InvalidOperation` (`none`). -/
def PyDec.gt : PyDec → PyDec → Option Bool
  | .nan, _ => none
  | _, .nan => none
  | .fin a, .fin b => some (decide (b < a))
  | .inf s, .fin _ => some (!s)
  | .fin _, .inf s => some s
  | .inf s, .inf t => some (t && !s)

/-- Python `x <= 0` on a Decimal; raises on NaN. -/
def PyDec.le0 : PyDec → Option Bool
  | .nan => none
  | .fin q => some (decide (q ≤ 0))
  | .inf s => some s

/-- Python `x < 0` on a Decimal; raises on NaN. -/
def PyDec.lt0 : PyDec → Option Bool
  | .nan => none
  | .fin q => some (decide (q < 0))
  | .inf s => some s

/-- Outcome of a handler's `parse_decimal` + positivity check, as the
handler's `try` block sees it: `ok` (check passed), `invalid`
(`ValueError` raised and caught: parse failure or failed constraint),
`uncaughtErr` (an exception the `except ValueError` clause does not
catch, i.e. `InvalidOperation` from comparing NaN). -/
inductive NumOutcome
  | ok (v : PyDec)
  | invalid
  | uncaughtErr
deriving DecidableEq

/-- `parse_decimal(text)` followed by `if v <= 0: raise ValueError`. -/
def checkPositive (text : String) : NumOutcome :=
  match parse_decimal text with
  | none => .invalid
  | some d =>
    match d.le0 with
    | none => .uncaughtErr
    | some true => .invalid
    | some false => .ok d

/-- `parse_decimal(text)` followed by `if v < 0: raise ValueError`. -/
def checkNonNegative (text : String) : NumOutcome :=
  match parse_decimal text with
  | none => .invalid
  | some d =>
    match d.lt0 with
    | none => .uncaughtErr
    | some true => .invalid
    | some false => .ok d

/-- The FSM states of `DeliveryStates` (source lines 40-56). -/
inductive BotState
  | setup_cny_rate
  | setup_weight_tariff
  | setup_volume_coefficient
  | setup_photo_report
  | setup_duty_free_threshold
  | manual_eur_rate
  | calc_length
  | calc_width
  | calc_height
  | calc_weight
  | calc_price_cny
  | calc_delivery_ru
deriving DecidableEq

/-- The per-user FSM working dictionary (`state.get_data()` /
`state.update_data(...)`): each key is `none` until stored. -/
structure FSMData where
  cny_rate : Option PyDec
  weight_tariff : Option PyDec
  volume_coefficient : Option PyDec
  photo_report : Option PyDec
  length : Option PyDec
  width : Option PyDec
  height : Option PyDec
  weight : Option PyDec
  price_cny : Option PyDec
  delivery_ru : Option PyDec
deriving DecidableEq

/-- The empty working dictionary (as after `state.clear()`). -/
def FSMData.empty : FSMData :=
  ⟨none, none, none, none, none, none, none, none, none, none⟩

/-- The persisted settings dictionary built by the setup flow
(source lines 269-275): keys `cny_rate`, `weight_tariff`,
`volume_coefficient`, `photo_report`, `duty_free_threshold`. -/
structure SettingsDict where
  cny_rate : PyDec
  weight_tariff : PyDec
  volume_coefficient : PyDec
  photo_report : PyDec
  duty_free_threshold : PyDec
deriving DecidableEq

/-- The intermediate values of the final cost computation, as rendered
into the result message (source lines 444-466). -/
structure Breakdown where
  volume_weight : PyDec
  volume_coefficient : PyDec
  delivery_cost : PyDec
  duty : PyDec
  total_cost : PyDec
  cost_20 : PyDec
  cost_30 : PyDec
deriving DecidableEq

/-- Outgoing messages, one constructor per distinct `message.answer`
call of the source; the result message carries the rate and cost values
it renders. -/
inductive Msg
  | welcomeMenu
  | welcomeSetup
  | settingsMenuIntro
  | promptCnyRate
  | promptWeightTariff
  | promptVolumeCoefficient
  | promptPhotoReport
  | promptDutyThreshold
  | settingsInfo (st : SettingsDict)
  | settingsSaved
  | errPositive
  | errNonNegative
  | promptLength
  | promptWidth
  | promptHeight
  | promptWeight
  | promptPriceCny
  | promptDeliveryRu
  | settingsNotFound
  | promptManualRate
  | result (rate : PyDec) (b : Breakdown)
  | errCalculation
deriving DecidableEq

/-- The per-user session state: current FSM state (`none` when no state
is set), the FSM working data, this user's slot of the settings store,
and the process-wide `last_eur_rate` cache. -/
structure SysState where
  fsm : Option BotState
  data : FSMData
  settings : Option SettingsDict
  lastRate : Option PyDec
deriving DecidableEq

/-- The outcome of the three live rate sources for one `fetch_eur_rate`
call: for each source, `none` means the attempt failed (network error,
non-200 status, malformed document, missing entry, parse failure) and
`some r` means it produced the parsed rate `r`. -/
structure RateEnv where
  src1 : Option PyDec
  src2 : Option PyDec
  src3 : Option PyDec
deriving DecidableEq

/-- Which source a resolved rate came from: the central-bank XML feed
(PrimarySource), its JSON mirror (SecondarySource), the Google Finance
HTML page (TertiarySource), or the in-process cache. -/
inductive RateSource
  | cbr
  | cbrJson
  | google
  | cached
deriving DecidableEq

/-- `DeliveryBot.fetch_eur_rate` (source lines 91-152): try the three
sources in order; on the first success store the rate in
`last_eur_rate` and return it; if all fail, return the cached rate if
it is truthy (`if self.last_eur_rate:`), else `None`.  Returns the
resolved rate (with its source, as the code logs it) and the new cache
value. -/
def fetchEurRate (env : RateEnv) (last : Option PyDec) :
    Option (PyDec × RateSource) × Option PyDec :=
  match env.src1 with
  | some r => (some (r, .cbr), some r)
  | none =>
    match env.src2 with
    | some r => (some (r, .cbrJson), some r)
    | none =>
      match env.src3 with
      | some r => (some (r, .google), some r)
      | none =>
        match last with
        | some r => if r.truthy then (some (r, .cached), some r) else (none, some r)
        | none => (none, none)

/-- The caller-side guard `if not eur_rate:` (source line 401): a
missing rate, and any falsy rate (zero), are routed to manual entry;
only the rates passing this guard reach the cost computation. -/
def guardRate (x : Option (PyDec × RateSource)) : Option (PyDec × RateSource) :=
  match x with
  | some (r, src) => if r.truthy then some (r, src) else none
  | none => none

/-- Source line 409-410: `volume = (length/100)*(width/100)*(height/100)`,
`volume_weight = volume * 167`. -/
def calcVolumeWeight (length width height : PyDec) : Option PyDec :=
  (length.div (.fin 100)).bind fun v1 =>
  (width.div (.fin 100)).bind fun v2 =>
  (height.div (.fin 100)).bind fun v3 =>
  (v1.mul v2).bind fun v12 =>
  (v12.mul v3).bind fun volume =>
  volume.mul (.fin 167)

/-- Source lines 413-415: the volume surcharge, charged only when the
volumetric weight strictly exceeds the actual weight. -/
def calcVolumeCoefficient (volume_weight weight rate : PyDec) : Option PyDec :=
  (volume_weight.gt weight).bind fun gtw =>
  if gtw then
    (volume_weight.sub weight).bind fun dw => dw.mul rate
  else
    some (.fin 0)

/-- Source lines 424-428: the duty, charged only when the price in the
settlement currency strictly exceeds the duty-free threshold. -/
def calcDuty (price_eur threshold eur : PyDec) : Option PyDec :=
  (price_eur.gt threshold).bind fun gthr =>
  if gthr then
    (price_eur.sub threshold).bind fun ex =>
    (ex.mul (.fin (15/100))).bind fun m1 =>
    (m1.mul eur).bind fun m2 =>
    (m2.add (.fin 500)).bind fun base =>
    base.mul (.fin (21/20))
  else
    some (.fin 0)

/-- Source lines 431-441: base cost (price in local currency + domestic
leg + delivery fee + duty + photo fee) and the two markups. -/
def calcTotals (pc2 delivery_cost delivery_ru duty photo : PyDec) :
    Option (PyDec × PyDec × PyDec) :=
  (pc2.add delivery_cost).bind fun t1 =>
  (t1.add delivery_ru).bind fun t2 =>
  (t2.add duty).bind fun t3 =>
  (t3.add photo).bind fun total_cost =>
  (total_cost.mul (.fin (12/10))).bind fun cost_20 =>
  (total_cost.mul (.fin (13/10))).bind fun cost_30 =>
  some (total_cost, cost_20, cost_30)

/-- The final cost computation of `process_calculation` (source lines
408-441) over the stored working data: `none` models any exception
(missing dictionary key, or a decimal signal such as comparing NaN),
which the surrounding `except Exception` catches. -/
def computePy (d : FSMData) (st : SettingsDict) (eur : PyDec) : Option Breakdown :=
  d.length.bind fun length =>
  d.width.bind fun width =>
  d.height.bind fun height =>
  d.weight.bind fun weight =>
  d.price_cny.bind fun price_cny =>
  d.delivery_ru.bind fun delivery_ru =>
  (calcVolumeWeight length width height).bind fun volume_weight =>
  (calcVolumeCoefficient volume_weight weight st.volume_coefficient).bind fun volume_coefficient =>
  (weight.mul st.weight_tariff).bind fun wt =>
  (wt.add volume_coefficient).bind fun delivery_cost =>
  (price_cny.mul st.cny_rate).bind fun pc =>
  (pc.div eur).bind fun price_eur =>
  (calcDuty price_eur st.duty_free_threshold eur).bind fun duty =>
  (price_cny.mul st.cny_rate).bind fun pc2 =>
  (calcTotals pc2 delivery_cost delivery_ru duty st.photo_report).bind fun totals =>
  some ⟨volume_weight, volume_coefficient, delivery_cost, duty, totals.1, totals.2.1, totals.2.2⟩

/-- `process_calculation` (source lines 389-476): load settings (abort
with an instruction message, and no other effect, if absent), resolve
the rate (updating the cache), fall to manual entry when no usable rate
exists, else run the computation; on success or on an internal fault
the FSM state and data are cleared. -/
def processCalculation (env : RateEnv) (s : SysState) : SysState × List Msg :=
  match s.settings with
  | none => (s, [Msg.settingsNotFound])
  | some st =>
    let fr := fetchEurRate env s.lastRate
    let s1 : SysState := { s with lastRate := fr.2 }
    match guardRate fr.1 with
    | none => ({ s1 with fsm := some .manual_eur_rate }, [Msg.promptManualRate])
    | some (r, _src) =>
      match computePy s1.data st r with
      | some b => ({ s1 with fsm := none, data := FSMData.empty }, [Msg.result r b])
      | none => ({ s1 with fsm := none, data := FSMData.empty }, [Msg.errCalculation])

/-- The common shape of the numeric-entry handlers: run the check; on
success store the value and advance with the next prompt; on a caught
`ValueError` re-emit the validation message and stay; on an uncaught
exception stay silently. -/
def numericHandler (check : String → NumOutcome) (store : FSMData → PyDec → FSMData)
    (next : BotState) (prompt err : Msg) (s : SysState) (text : String) :
    SysState × List Msg :=
  match check text with
  | .ok v => ({ s with fsm := some next, data := store s.data v }, [prompt])
  | .invalid => (s, [err])
  | .uncaughtErr => (s, [])

/-- `process_cny_rate` (source lines 204-216). -/
def processCnyRate : SysState → String → SysState × List Msg :=
  numericHandler checkPositive (fun d v => { d with cny_rate := some v })
    .setup_weight_tariff .promptWeightTariff .errPositive

/-- `process_weight_tariff` (source lines 218-230). -/
def processWeightTariff : SysState → String → SysState × List Msg :=
  numericHandler checkPositive (fun d v => { d with weight_tariff := some v })
    .setup_volume_coefficient .promptVolumeCoefficient .errPositive

/-- `process_volume_coefficient` (source lines 232-244). -/
def processVolumeCoefficient : SysState → String → SysState × List Msg :=
  numericHandler checkPositive (fun d v => { d with volume_coefficient := some v })
    .setup_photo_report .promptPhotoReport .errPositive

/-- `process_photo_report` (source lines 246-258); the check is
non-negativity (`if cost < 0`). -/
def processPhotoReport : SysState → String → SysState × List Msg :=
  numericHandler checkNonNegative (fun d v => { d with photo_report := some v })
    .setup_duty_free_threshold .promptDutyThreshold .errNonNegative

/-- `process_duty_free_threshold` (source lines 260-293): on a valid
threshold, assemble the settings dictionary from the working data (a
missing key would raise an uncaught `KeyError`), persist it, report it,
and clear the FSM state and data. -/
def processDutyFreeThreshold (s : SysState) (text : String) : SysState × List Msg :=
  match checkPositive text with
  | .ok threshold =>
    match s.data.cny_rate, s.data.weight_tariff, s.data.volume_coefficient,
        s.data.photo_report with
    | some c, some w, some v, some p =>
      let st : SettingsDict := ⟨c, w, v, p, threshold⟩
      ({ s with settings := some st, fsm := none, data := FSMData.empty },
        [Msg.settingsInfo st, Msg.settingsSaved])
    | _, _, _, _ => (s, [])
  | .invalid => (s, [Msg.errPositive])
  | .uncaughtErr => (s, [])

/-- `process_length` (source lines 305-317). -/
def processLength : SysState → String → SysState × List Msg :=
  numericHandler checkPositive (fun d v => { d with length := some v })
    .calc_width .promptWidth .errPositive

/-- `process_width` (source lines 319-331). -/
def processWidth : SysState → String → SysState × List Msg :=
  numericHandler checkPositive (fun d v => { d with width := some v })
    .calc_height .promptHeight .errPositive

/-- `process_height` (source lines 333-345). -/
def processHeight : SysState → String → SysState × List Msg :=
  numericHandler checkPositive (fun d v => { d with height := some v })
    .calc_weight .promptWeight .errPositive

/-- `process_weight` (source lines 347-359). -/
def processWeight : SysState → String → SysState × List Msg :=
  numericHandler checkPositive (fun d v => { d with weight := some v })
    .calc_price_cny .promptPriceCny .errPositive

/-- `process_price_cny` (source lines 361-373). -/
def processPriceCny : SysState → String → SysState × List Msg :=
  numericHandler checkPositive (fun d v => { d with price_cny := some v })
    .calc_delivery_ru .promptDeliveryRu .errPositive

/-- `process_delivery_ru` (source lines 375-387): a valid non-negative
fee is stored and the final computation is invoked directly (no state
transition first). -/
def processDeliveryRu (env : RateEnv) (s : SysState) (text : String) :
    SysState × List Msg :=
  match checkNonNegative text with
  | .ok v => processCalculation env { s with data := { s.data with delivery_ru := some v } }
  | .invalid => (s, [Msg.errNonNegative])
  | .uncaughtErr => (s, [])

/-- `process_manual_eur_rate` (source lines 478-489): a valid positive
manual rate is stored into the process-wide cache and the final
computation (which re-runs rate resolution) is invoked. -/
def processManualEurRate (env : RateEnv) (s : SysState) (text : String) :
    SysState × List Msg :=
  match checkPositive text with
  | .ok r => processCalculation env { s with lastRate := some r }
  | .invalid => (s, [Msg.errPositive])
  | .uncaughtErr => (s, [])

/-- `start_command` (source lines 169-181): with settings, show the
menu (leaving any current state untouched); without, enter the setup
chain. -/
def startCommand (s : SysState) : SysState × List Msg :=
  match s.settings with
  | some _ => (s, [Msg.welcomeMenu])
  | none => ({ s with fsm := some .setup_cny_rate }, [Msg.welcomeSetup, Msg.promptCnyRate])

/-- `restart_command` (source lines 183-187): clear state and data,
then behave as `/start`. -/
def restartCommand (s : SysState) : SysState × List Msg :=
  startCommand { s with fsm := none, data := FSMData.empty }

/-- `settings_menu` (source lines 194-202): enter the setup chain
(without clearing the working data). -/
def settingsMenu (s : SysState) : SysState × List Msg :=
  ({ s with fsm := some .setup_cny_rate }, [Msg.settingsMenuIntro, Msg.promptCnyRate])

/-- `start_calculation` (source lines 296-303): enter the calculation
chain; note that no settings check is performed here. -/
def startCalculation (s : SysState) : SysState × List Msg :=
  ({ s with fsm := some .calc_length }, [Msg.promptLength])

/-- One dispatch of an incoming message, following aiogram's
first-matching-handler rule in the registration order of
`register_handlers` (source lines 166-489): the two commands, the two
button texts, the setup-state handlers, the calculate button, the
calculation-state handlers, and last the manual-rate handler. -/
def step (env : RateEnv) (s : SysState) (text : String) : SysState × List Msg :=
  if text = "/start" then startCommand s
  else if text = "/restart" then restartCommand s
  else if text = "🔄 Перезапустить бот" then restartCommand s
  else if text = "⚙️ Изменить настройки" then settingsMenu s
  else if s.fsm = some .setup_cny_rate then processCnyRate s text
  else if s.fsm = some .setup_weight_tariff then processWeightTariff s text
  else if s.fsm = some .setup_volume_coefficient then processVolumeCoefficient s text
  else if s.fsm = some .setup_photo_report then processPhotoReport s text
  else if s.fsm = some .setup_duty_free_threshold then processDutyFreeThreshold s text
  else if text = "📊 Произвести расчет" then startCalculation s
  else if s.fsm = some .calc_length then processLength s text
  else if s.fsm = some .calc_width then processWidth s text
  else if s.fsm = some .calc_height then processHeight s text
  else if s.fsm = some .calc_weight then processWeight s text
  else if s.fsm = some .calc_price_cny then processPriceCny s text
  else if s.fsm = some .calc_delivery_ru then processDeliveryRu env s text
  else if s.fsm = some .manual_eur_rate then processManualEurRate env s text
  else (s, [])

/-! ### The pricing engine over validated finite inputs

The spec's PricingEngine (§4.3) is a pure function over the validated
`CalculationInput`, the `SettingsRecord` and the resolved rate, all
finite decimals; `compute` below embeds the arithmetic of source lines
408-441 on exact rationals, and `spec_compute` transcribes the spec's
formula chain for comparison. -/

/-- The spec's `CalculationInput` record (§3). -/
structure CalculationInput where
  length : ℚ
  width : ℚ
  height : ℚ
  weight : ℚ
  priceSourceCurrency : ℚ
  domesticDeliveryFee : ℚ
deriving DecidableEq

/-- The spec's `SettingsRecord` (§3). -/
structure SettingsRecord where
  sourceCurrencyRate : ℚ
  weightTariff : ℚ
  volumeSurchargeRate : ℚ
  photoReportFee : ℚ
  dutyFreeThreshold : ℚ
deriving DecidableEq

/-- The spec's `CostBreakdown` (§4.3): every intermediate of the chain. -/
structure CostBreakdown where
  volumeM3 : ℚ
  volumetricWeight : ℚ
  volumeSurcharge : ℚ
  domesticLegCost : ℚ
  priceInSettlementCurrency : ℚ
  duty : ℚ
  baseCost : ℚ
  markedUp20 : ℚ
  markedUp30 : ℚ
deriving DecidableEq

/-- The cost computation exactly as written in the source (lines
408-441), on exact rationals: volume in m³, volumetric weight with
divisor 167, surcharge only when the volumetric weight strictly exceeds
the actual weight, duty `((excess * 0.15) * rate + 500) * 1.05` only
when the settlement-currency price strictly exceeds the threshold, base
cost as the five-term sum, then the 1.2 and 1.3 markups. -/
def compute (i : CalculationInput) (s : SettingsRecord) (rate : ℚ) : CostBreakdown :=
  let volume := (i.length / 100) * (i.width / 100) * (i.height / 100)
  let volume_weight := volume * 167
  let volume_coefficient :=
    if volume_weight > i.weight then (volume_weight - i.weight) * s.volumeSurchargeRate else 0
  let delivery_cost := i.weight * s.weightTariff + volume_coefficient
  let price_eur := (i.priceSourceCurrency * s.sourceCurrencyRate) / rate
  let duty :=
    if price_eur > s.dutyFreeThreshold then
      (((price_eur - s.dutyFreeThreshold) * (15/100)) * rate + 500) * (21/20)
    else 0
  let total_cost :=
    i.priceSourceCurrency * s.sourceCurrencyRate + delivery_cost + i.domesticDeliveryFee +
      duty + s.photoReportFee
  ⟨volume, volume_weight, volume_coefficient, delivery_cost, price_eur, duty, total_cost,
    total_cost * (12/10), total_cost * (13/10)⟩

/-- The spec's formula chain (§4.3 steps 1-9), transcribed from the
spec's words: `max 0` forms for the surcharge and the duty excess, duty
condition `dutyExcess > 0`. -/
def spec_compute (i : CalculationInput) (s : SettingsRecord) (rate : ℚ) : CostBreakdown :=
  let volumeM3 := (i.length / 100) * (i.width / 100) * (i.height / 100)
  let volumetricWeight := volumeM3 * 167
  let volumeSurcharge := max 0 (volumetricWeight - i.weight) * s.volumeSurchargeRate
  let domesticLegCost := i.weight * s.weightTariff + volumeSurcharge
  let priceInSettlementCurrency := (i.priceSourceCurrency * s.sourceCurrencyRate) / rate
  let dutyExcess := max 0 (priceInSettlementCurrency - s.dutyFreeThreshold)
  let duty := if dutyExcess > 0 then ((dutyExcess * (15/100)) * rate + 500) * (21/20) else 0
  let baseCost :=
    i.priceSourceCurrency * s.sourceCurrencyRate + domesticLegCost + i.domesticDeliveryFee +
      duty + s.photoReportFee
  ⟨volumeM3, volumetricWeight, volumeSurcharge, domesticLegCost, priceInSettlementCurrency,
    duty, baseCost, baseCost * (12/10), baseCost * (13/10)⟩

/-! ### The per-user settings store -/

/-- The settings persistence layer, keyed by the Telegram user id: one
slot per user (`/app/data/user_settings_{user_id}.json`). -/
def SettingsStore := Int → Option SettingsDict

/-- `SettingsManager.save_settings` (source lines 61-68): write this
user's file wholesale, leaving every other user's slot untouched. -/
def save_settings (user_id : Int) (settings : SettingsDict) (store : SettingsStore) :
    SettingsStore :=
  fun u => if u = user_id then some settings else store u

/-- `SettingsManager.load_settings` (source lines 70-79): read this
user's slot; `none` models the missing or unreadable file. -/
def load_settings (user_id : Int) (store : SettingsStore) : Option SettingsDict :=
  store user_id

/-! ### Concrete fixtures used by individual claims -/

/-- The rate carried by a result message, if the message list is a
single result message. -/
def resultRate (msgs : List Msg) : Option PyDec :=
  match msgs with
  | [Msg.result r _] => some r
  | _ => none

/-- A complete calculation working set: a 1m cube weighing 1kg, price 1
CNY, free domestic delivery. -/
def c3Data : FSMData :=
  ⟨none, none, none, none, some (.fin 100), some (.fin 100), some (.fin 100),
    some (.fin 1), some (.fin 1), some (.fin 0)⟩

/-- All-ones settings. -/
def c3Settings : SettingsDict := ⟨.fin 1, .fin 1, .fin 1, .fin 1, .fin 1⟩

/-- A user waiting in the manual-rate state with no cached rate. -/
def c3State : SysState := ⟨some .manual_eur_rate, c3Data, some c3Settings, none⟩

/-- An environment where the primary source has come back up with rate 60. -/
def c3LiveEnv : RateEnv := ⟨some (.fin 60), none, none⟩

/-- A fresh user: no state, no data, no settings, no cached rate. -/
def c4Init : SysState := ⟨none, FSMData.empty, none, none⟩

/-- A user at the first calculation step with no settings. -/
def c5State : SysState := ⟨some .calc_length, FSMData.empty, none, none⟩

/-- A working set holding only a stored length. -/
def c6Data : FSMData :=
  ⟨none, none, none, none, some (.fin 5), none, none, none, none, none⟩

/-- A user at the final calculation step whose settings file is gone. -/
def c6State : SysState := ⟨some .calc_delivery_ru, c6Data, none, none⟩

/-- All-ones settings for the fault fixture. -/
def c6Settings : SettingsDict := ⟨.fin 1, .fin 1, .fin 1, .fin 1, .fin 1⟩

/-- A complete working set whose stored length is NaN, making the
volumetric-weight comparison raise inside the final computation. -/
def c6NanData : FSMData :=
  ⟨none, none, none, none, some .nan, some (.fin 100), some (.fin 100),
    some (.fin 1), some (.fin 1), some (.fin 0)⟩

/-- A user at the final calculation step with the NaN working set. -/
def c6FaultState : SysState := ⟨some .calc_delivery_ru, c6NanData, some c6Settings, none⟩

/-- An environment whose primary source yields rate 60. -/
def c6Env : RateEnv := ⟨some (.fin 60), none, none⟩

/-! ### Theorems

`Rat`'s arithmetic is `@[irreducible]` in Batteries; inside this
section we let it unfold so concrete evaluations can go through
`decide`. -/

section

attribute [local semireducible] Rat.mul Rat.add Rat.inv Rat.sub Rat.ofScientific

/-- The source's guarded surcharge equals the spec's `max 0` form. -/
theorem ite_sub_mul_eq_max_mul (a b r : ℚ) :
    (if a > b then (a - b) * r else 0) = max 0 (a - b) * r := by
  split_ifs with h
  · rw [max_eq_right (le_of_lt (sub_pos.mpr h))]
  · rw [max_eq_left (sub_nonpos.mpr (le_of_not_lt h)), zero_mul]

/-- The source's guarded duty equals the spec's `dutyExcess` form. -/
theorem duty_ite_eq_max_ite (p t r : ℚ) :
    (if p > t then (((p - t) * (15/100)) * r + 500) * (21/20) else 0) =
      (if max 0 (p - t) > 0 then ((max 0 (p - t) * (15/100)) * r + 500) * (21/20) else 0) := by
  have hmax : (max 0 (p - t) > 0) ↔ t < p := by
    rw [gt_iff_lt, lt_max_iff]
    simp [sub_pos]
  rcases lt_or_le t p with h | h
  · rw [if_pos h, if_pos (hmax.mpr h), max_eq_right (le_of_lt (sub_pos.mpr h))]
  · rw [if_neg (not_lt.mpr h), if_neg (fun hc => absurd (hmax.mp hc) (not_lt.mpr h))]

/-- A rate accepted by the positivity check is truthy (it is a finite
positive value or `+Infinity`, never zero or NaN). -/
theorem checkPositive_ok_truthy (text : String) (r : PyDec)
    (h : checkPositive text = .ok r) : r.truthy = true := by
  unfold checkPositive at h
  rcases hp : parse_decimal text with _ | d
  · rw [hp] at h
    exact absurd h (by simp)
  · rw [hp] at h
    rcases d with q | b | _
    · by_cases hq : q ≤ 0
      · simp [PyDec.le0, hq] at h
      · simp [PyDec.le0, hq] at h
        subst h
        simp only [PyDec.truthy, bne_iff_ne, ne_eq]
        exact fun h0 => hq (le_of_eq h0)
    · cases b
      · simp only [PyDec.le0] at h
        cases h
        rfl
      · simp [PyDec.le0] at h
    · simp [PyDec.le0] at h

/-- For a user with a settings record, the final computation reduces to
the case split on the resolved rate and the computation result. -/
theorem processCalculation_cases (env : RateEnv) (s : SysState) (st : SettingsDict)
    (hst : s.settings = some st) :
    processCalculation env s =
      match guardRate (fetchEurRate env s.lastRate).1 with
      | none =>
        ({ s with
            lastRate := (fetchEurRate env s.lastRate).2
            fsm := some .manual_eur_rate }, [Msg.promptManualRate])
      | some (r, _src) =>
        match computePy s.data st r with
        | some b =>
          ({ s with
              lastRate := (fetchEurRate env s.lastRate).2
              fsm := none
              data := FSMData.empty }, [Msg.result r b])
        | none =>
          ({ s with
              lastRate := (fetchEurRate env s.lastRate).2
              fsm := none
              data := FSMData.empty }, [Msg.errCalculation]) := by
  unfold processCalculation
  rw [hst]

/-- C1: for every input, settings record and positive rate, the cost
computation embedded from the source equals the spec's formula chain,
and on the spec's worked scenario it produces exactly the expected
breakdown, in exact decimal arithmetic. -/
theorem compute_matches_spec_chain :
    (∀ (i : CalculationInput) (s : SettingsRecord) (rate : ℚ),
      0 < rate → compute i s rate = spec_compute i s rate) ∧
    compute ⟨50, 40, 30, 5, 1000, 300⟩ ⟨12.5, 400, 60, 200, 200⟩ 100 =
      ⟨0.06, 10.02, 301.2, 2301.2, 125, 0, 15301.2, 18361.44, 19891.56⟩ := by
  constructor
  · intro i s rate _
    simp only [compute, spec_compute, ite_sub_mul_eq_max_mul, duty_ite_eq_max_ite]
  · decide

/-- C1 witness: the general chain equality applied to the worked
scenario at the concrete positive rate 100. -/
theorem compute_matches_spec_chain_witness :
    (0 : ℚ) < 100 ∧
    compute ⟨50, 40, 30, 5, 1000, 300⟩ ⟨12.5, 400, 60, 200, 200⟩ 100 =
      spec_compute ⟨50, 40, 30, 5, 1000, 300⟩ ⟨12.5, 400, 60, 200, 200⟩ 100 :=
  ⟨by norm_num, compute_matches_spec_chain.1 ⟨50, 40, 30, 5, 1000, 300⟩
    ⟨12.5, 400, 60, 200, 200⟩ 100 (by norm_num)⟩

/-- C2: the resolver tries the three sources strictly in priority
order; whenever every earlier source fails and a source succeeds with
value R, the resolver returns R tagged with that source and the cached
rate becomes R. -/
theorem fetch_priority_chain (e1 e2 e3 last : Option PyDec) (R : PyDec) :
    (e1 = some R → fetchEurRate ⟨e1, e2, e3⟩ last = (some (R, .cbr), some R)) ∧
    (e1 = none → e2 = some R →
      fetchEurRate ⟨e1, e2, e3⟩ last = (some (R, .cbrJson), some R)) ∧
    (e1 = none → e2 = none → e3 = some R →
      fetchEurRate ⟨e1, e2, e3⟩ last = (some (R, .google), some R)) := by
  refine ⟨fun h1 => ?_, fun h1 h2 => ?_, fun h1 h2 h3 => ?_⟩ <;> subst_vars <;> rfl

/-- C2 witness: the first two sources fail and the third succeeds with
9.5; the resolver returns 9.5 tagged with the tertiary source and
caches it. -/
theorem fetch_priority_chain_witness :
    fetchEurRate ⟨none, none, some (.fin (19/2))⟩ none =
      (some (.fin (19/2), .google), some (.fin (19/2))) :=
  (fetch_priority_chain none none (some (.fin (19/2))) none (.fin (19/2))).2.2 rfl rfl rfl

/-- C3 counterexample: in the manual-rate state the user enters 50, but
the primary source has recovered with rate 60; the handler re-runs rate
resolution, so the computation uses 60, not the manual 50, and the
cached rate ends at 60. -/
theorem manual_rate_not_authoritative_cex :
    checkPositive "50" = .ok (.fin 50) ∧
    resultRate (processManualEurRate c3LiveEnv c3State "50").2 = some (.fin 60) ∧
    resultRate (processManualEurRate c3LiveEnv c3State "50").2 ≠ some (.fin 50) ∧
    (processManualEurRate c3LiveEnv c3State "50").1.lastRate = some (.fin 60) := by
  decide

/-- C3 amended: a valid positive manual rate r is stored into the
cache, and when all three live sources still fail at the re-resolution,
the computation for this calculation uses exactly r (served back from
the cache) and the cache still holds r afterwards. -/
theorem manual_rate_used_when_sources_fail (s : SysState) (st : SettingsDict) (r : PyDec)
    (text : String) (hok : checkPositive text = .ok r) (hst : s.settings = some st) :
    (processManualEurRate ⟨none, none, none⟩ s text).1.lastRate = some r ∧
    (∀ b, computePy s.data st r = some b →
      (processManualEurRate ⟨none, none, none⟩ s text).2 = [Msg.result r b]) ∧
    (computePy s.data st r = none →
      (processManualEurRate ⟨none, none, none⟩ s text).2 = [Msg.errCalculation]) := by
  have ht : r.truthy = true := checkPositive_ok_truthy text r hok
  unfold processManualEurRate processCalculation
  simp only [hok, hst, fetchEurRate, guardRate, ht, if_true]
  refine ⟨?_, fun b hb => ?_, fun hn => ?_⟩
  · cases hcomp : computePy s.data st r <;> simp [hcomp]
  · simp [hb]
  · simp [hn]

/-- C3 witness: with all sources down, the amended statement at the
concrete fixture: manual rate 50 is cached and drives the result. -/
theorem manual_rate_used_when_sources_fail_witness :
    checkPositive "50" = .ok (.fin 50) ∧
    (processManualEurRate ⟨none, none, none⟩ c3State "50").1.lastRate = some (.fin 50) :=
  ⟨by decide,
    (manual_rate_used_when_sources_fail c3State c3Settings (.fin 50) "50" (by decide) rfl).1⟩

/-- C4 counterexample: a fresh user with no settings record presses the
calculate button and lands in the first calculation step, and the next
input is processed by that step — calculation steps run without any
settings record. -/
theorem calc_steps_run_without_settings_cex :
    (step ⟨none, none, none⟩ c4Init "📊 Произвести расчет").1.fsm = some .calc_length ∧
    (step ⟨none, none, none⟩ c4Init "📊 Произвести расчет").1.settings = none ∧
    (step ⟨none, none, none⟩ (step ⟨none, none, none⟩ c4Init "📊 Произвести расчет").1
        "50").1.fsm = some .calc_width := by
  decide

/-- C4 amended: a settings record is required only at the final
computation: when it is absent, the computation sends the setup
instruction and has no other effect (no breakdown, no state change). -/
theorem no_compute_without_settings (env : RateEnv) (s : SysState)
    (h : s.settings = none) : processCalculation env s = (s, [Msg.settingsNotFound]) := by
  unfold processCalculation
  rw [h]

/-- C4 witness: the amended statement at the fresh-user fixture. -/
theorem no_compute_without_settings_witness :
    c4Init.settings = none ∧
    processCalculation ⟨none, none, none⟩ c4Init = (c4Init, [Msg.settingsNotFound]) :=
  ⟨rfl, no_compute_without_settings ⟨none, none, none⟩ c4Init rfl⟩

/-- C5 counterexample: the input `NaN` is accepted by the decimal
parser but is not a positive decimal; the handler leaves the state and
data unchanged yet emits no validation message (the positivity
comparison raises an error the `except ValueError` clause does not
catch). -/
theorem nan_input_silent_retry_cex :
    parse_decimal "NaN" = some .nan ∧
    checkPositive "NaN" = .uncaughtErr ∧
    processLength c5State "NaN" = (c5State, ([] : List Msg)) := by
  decide

/-- C5 amended: for every numeric-entry handler and every raw input the
parser rejects or that parses to a finite value violating the field's
constraint, the handler stays in the same state with unchanged data and
emits the validation message; inputs parsing to NaN also stay with
unchanged data but emit no message. -/
theorem invalid_input_same_state_retry (s : SysState) (text : String) :
    (checkPositive text = .invalid →
      processCnyRate s text = (s, [Msg.errPositive]) ∧
      processWeightTariff s text = (s, [Msg.errPositive]) ∧
      processVolumeCoefficient s text = (s, [Msg.errPositive]) ∧
      processDutyFreeThreshold s text = (s, [Msg.errPositive]) ∧
      processLength s text = (s, [Msg.errPositive]) ∧
      processWidth s text = (s, [Msg.errPositive]) ∧
      processHeight s text = (s, [Msg.errPositive]) ∧
      processWeight s text = (s, [Msg.errPositive]) ∧
      processPriceCny s text = (s, [Msg.errPositive]) ∧
      (∀ env, processManualEurRate env s text = (s, [Msg.errPositive]))) ∧
    (checkPositive text = .uncaughtErr →
      processCnyRate s text = (s, []) ∧
      processWeightTariff s text = (s, []) ∧
      processVolumeCoefficient s text = (s, []) ∧
      processDutyFreeThreshold s text = (s, []) ∧
      processLength s text = (s, []) ∧
      processWidth s text = (s, []) ∧
      processHeight s text = (s, []) ∧
      processWeight s text = (s, []) ∧
      processPriceCny s text = (s, []) ∧
      (∀ env, processManualEurRate env s text = (s, []))) ∧
    (checkNonNegative text = .invalid →
      processPhotoReport s text = (s, [Msg.errNonNegative]) ∧
      (∀ env, processDeliveryRu env s text = (s, [Msg.errNonNegative]))) ∧
    (checkNonNegative text = .uncaughtErr →
      processPhotoReport s text = (s, []) ∧
      (∀ env, processDeliveryRu env s text = (s, []))) := by
  refine ⟨fun h => ?_, fun h => ?_, fun h => ?_, fun h => ?_⟩ <;>
    simp [processCnyRate, processWeightTariff, processVolumeCoefficient,
      processDutyFreeThreshold, processLength, processWidth, processHeight,
      processWeight, processPriceCny, processManualEurRate, processPhotoReport,
      processDeliveryRu, numericHandler, h]

/-- C5 witness: the amended statement at a parser-rejected input. -/
theorem invalid_input_same_state_retry_witness :
    checkPositive "abc" = .invalid ∧
    processLength c5State "abc" = (c5State, [Msg.errPositive]) :=
  ⟨by decide,
    ((invalid_input_same_state_retry c5State "abc").1 (by decide)).2.2.2.2.1⟩

/-- C6 counterexample: at the final computation step with no settings
record, the instruction message is sent but the workflow state is NOT
cleared — the user stays at the final calculation state and the
collected data survives. -/
theorem missing_settings_not_cleared_cex :
    processCalculation ⟨none, none, none⟩ c6State = (c6State, [Msg.settingsNotFound]) ∧
    (processCalculation ⟨none, none, none⟩ c6State).1.fsm = some .calc_delivery_ru ∧
    (processCalculation ⟨none, none, none⟩ c6State).1.data ≠ FSMData.empty := by
  decide

/-- C6 amended: when the final computation fails because no settings
record exists, an instruction message is sent and the state is left
untouched; when it fails with an internal fault during the computation,
a generic failure message is sent and the workflow state and data are
cleared. -/
theorem compute_failure_outcomes (env : RateEnv) (s : SysState) :
    (s.settings = none → processCalculation env s = (s, [Msg.settingsNotFound])) ∧
    (∀ st r src, s.settings = some st →
      guardRate (fetchEurRate env s.lastRate).1 = some (r, src) →
      computePy s.data st r = none →
      processCalculation env s =
        ({ s with
            fsm := none
            data := FSMData.empty
            lastRate := (fetchEurRate env s.lastRate).2 }, [Msg.errCalculation])) := by
  constructor
  · intro h
    unfold processCalculation
    rw [h]
  · intro st r src h1 h2 h3
    rw [processCalculation_cases env s st h1]
    simp only [h2, h3]

/-- C6 witness: a NaN length makes the computation fault; the state is
cleared and the failure message sent, while the missing-settings part
is witnessed by the C4-style fixture inside the same statement. -/
theorem compute_failure_outcomes_witness :
    computePy c6NanData c6Settings (.fin 60) = none ∧
    processCalculation c6Env c6FaultState =
      ({ c6FaultState with fsm := none, data := FSMData.empty, lastRate := some (.fin 60) },
        [Msg.errCalculation]) :=
  ⟨by decide,
    (compute_failure_outcomes c6Env c6FaultState).2 c6Settings (.fin 60) .cbr rfl
      (by decide) (by decide)⟩

/-- C7 counterexample: a prior successful resolution can set the cached
rate to zero; if afterwards all three sources fail, the resolver
returns no rate (manual entry) instead of the existing cached value,
because Python truthiness treats a zero Decimal as absent. -/
theorem zero_cached_rate_cex :
    fetchEurRate ⟨some (.fin 0), none, none⟩ none = (some (.fin 0, .cbr), some (.fin 0)) ∧
    fetchEurRate ⟨none, none, none⟩ (some (.fin 0)) = (none, some (.fin 0)) := by
  decide

/-- C7 amended: when all three sources fail, a truthy (nonzero) cached
rate is returned tagged as cached; no cached value — or a cached value
of zero — yields no rate (manual entry). -/
theorem cache_fallback_behavior (last : Option PyDec) (r : PyDec) :
    (last = some r → r.truthy = true →
      fetchEurRate ⟨none, none, none⟩ last = (some (r, .cached), some r)) ∧
    (last = some r → r.truthy = false →
      fetchEurRate ⟨none, none, none⟩ last = (none, some r)) ∧
    (last = none → fetchEurRate ⟨none, none, none⟩ last = (none, none)) := by
  refine ⟨fun h ht => ?_, fun h ht => ?_, fun h => ?_⟩
  · subst h
    simp [fetchEurRate, ht]
  · subst h
    simp [fetchEurRate, ht]
  · subst h
    rfl

/-- C7 witness: all sources fail with cached rate 0.95; the resolver
returns 0.95 tagged as cached. -/
theorem cache_fallback_behavior_witness :
    PyDec.truthy (.fin (19/20)) = true ∧
    fetchEurRate ⟨none, none, none⟩ (some (.fin (19/20))) =
      (some (.fin (19/20), .cached), some (.fin (19/20))) :=
  ⟨by decide, (cache_fallback_behavior (some (.fin (19/20))) (.fin (19/20))).1 rfl (by decide)⟩

/-- C8: writing a decimal string with `,` in place of `.` parses to the
identical value, for every string; in particular `"12,5"` and `"12.5"`
parse identically. -/
theorem comma_dot_parse_agree :
    (∀ s : String, parse_decimal (commaVersion s) = parse_decimal s) ∧
    parse_decimal "12,5" = parse_decimal "12.5" := by
  constructor
  · intro s
    unfold parse_decimal commaVersion
    congr 1
    show (s.toList.map (fun c => if c = '.' then ',' else c)).map commaToDot =
      s.toList.map commaToDot
    rw [List.map_map]
    congr 1
    funext c
    by_cases h1 : c = '.'
    · subst h1
      rfl
    · by_cases h2 : c = ','
      · subst h2
        rfl
      · simp [commaToDot, Function.comp, h1, h2]
  · decide

/-- C9: loading right after saving returns exactly the saved record,
and saving over a previous save replaces it wholesale (the prior record
is irrelevant). -/
theorem save_load_roundtrip_overwrite (u : Int) (s s2 : SettingsDict) (σ : SettingsStore) :
    load_settings u (save_settings u s σ) = some s ∧
    save_settings u s (save_settings u s2 σ) = save_settings u s σ := by
  constructor
  · simp [load_settings, save_settings]
  · funext u2
    by_cases h : u2 = u <;> simp [save_settings, h]

/-- C10: every rate that passes the caller-side guard — and is
therefore the divisor in the settlement-currency price computation — is
nonzero. -/
theorem rate_reaching_compute_nonzero (env : RateEnv) (last : Option PyDec) (r : PyDec)
    (src : RateSource)
    (h : guardRate (fetchEurRate env last).1 = some (r, src)) : r ≠ .fin 0 := by
  have ht : r.truthy = true := by
    rcases hx : (fetchEurRate env last).1 with _ | p
    · rw [hx] at h
      exact absurd h (by simp [guardRate])
    · rcases p with ⟨r1, s1⟩
      rw [hx] at h
      by_cases htr : r1.truthy = true
      · simp only [guardRate, htr, if_true] at h
        cases h
        exact htr
      · simp [guardRate, htr] at h
  intro hc
  rw [hc] at ht
  simp [PyDec.truthy] at ht

/-- C10 witness: the guard applied to a successful primary-source
resolution with rate 95. -/
theorem rate_reaching_compute_nonzero_witness :
    guardRate (fetchEurRate ⟨some (.fin 95), none, none⟩ none).1 = some (.fin 95, .cbr) ∧
    (PyDec.fin 95) ≠ .fin 0 :=
  ⟨by decide,
    rate_reaching_compute_nonzero ⟨some (.fin 95), none, none⟩ none (.fin 95) .cbr (by decide)⟩

end

end ChinaBot
